import Mathlib

/-!
# Verification of the Kaza search/queue/player core

Shallow embedding, in Lean 4, of the components of the Kaza repository that
the verified claims are about:

* the static `ErrorHandler` (error taxonomy, `createError`, `retry`) from
  `src/Plugins/PlayerMoved.ts` (third module in that file);
* the static `URLParser` (platform classification) from the module whose
  original file name is unknown (`part_005`), which is the classifier used by
  `EnhancedSearchManager` in `src/Managers/EnhancedSearchManager.ts`;
* the `EnhancedSearchManager` search pipeline (cache, retry, fallback walk,
  error results) from `src/Managers/EnhancedSearchManager.ts`;
* the two queue implementations (`src/Managers/KazagumoQueue.ts`, and the
  event-emitter queue from `part_003`);
* the `KazagumoPlayer.destroy` teardown from `part_004`.

Asynchrony is modelled by explicit state passing: the upstream Lavalink
resolver is a parameter mapping a call index and query to an outcome, timers
and delays are recorded symbolically, and thrown JavaScript exceptions are
values of an `Except` monad.  JavaScript truthiness on optional strings and
numbers (where `""` and `0` are falsy) is modelled explicitly.
-/

set_option autoImplicit false

namespace Kaza

/-- JavaScript `a || b` for an optional string: `undefined` and `""` are falsy. -/
def jsOrS (a : Option String) (b : String) : String :=
  match a with
  | none => b
  | some s => if s = "" then b else s

/-- JavaScript `a || b` chaining for two optional strings (used for
`match[2] || match[1] || ''`): an absent or empty capture falls through. -/
def jsOrO (a b : Option String) : Option String :=
  match a with
  | none => b
  | some s => if s = "" then b else some s

/-- JavaScript `a || b` for an optional number: `undefined` and `0` are falsy. -/
def jsOrN (a : Option Nat) (b : Nat) : Nat :=
  match a with
  | none => b
  | some n => if n = 0 then b else n

/-! ## Error taxonomy — static `ErrorHandler` in `src/Plugins/PlayerMoved.ts` -/

/-- The `ErrorCode` enum of the static error handler. -/
inductive ErrorCode where
  | CONNECTION_FAILED | NODE_UNAVAILABLE | LAVALINK_ERROR
  | PLAYER_NOT_FOUND | VOICE_CONNECTION_FAILED | TRACK_FAILED
  | NO_RESULTS | SEARCH_FAILED | INVALID_URL | PLATFORM_UNAVAILABLE
  | MISSING_CREDENTIALS | INVALID_CONFIG | PLUGIN_LOAD_FAILED
  | QUEUE_EMPTY | TRACK_NOT_FOUND | INVALID_INDEX
  | UNKNOWN_ERROR | TIMEOUT | RATE_LIMITED
  deriving DecidableEq, Repr

namespace ErrorHandler

open ErrorCode

/-- `ErrorHandler.errorMessages`. -/
def errorMessages : ErrorCode → String
  | CONNECTION_FAILED => "Failed to connect to Lavalink server"
  | NODE_UNAVAILABLE => "No available Lavalink nodes"
  | LAVALINK_ERROR => "Lavalink server encountered an error"
  | PLAYER_NOT_FOUND => "Music player not found for this server"
  | VOICE_CONNECTION_FAILED => "Failed to connect to voice channel"
  | TRACK_FAILED => "Track playback failed"
  | NO_RESULTS => "No search results found"
  | SEARCH_FAILED => "Search request failed"
  | INVALID_URL => "Invalid or unsupported URL format"
  | PLATFORM_UNAVAILABLE => "Platform not available or configured"
  | MISSING_CREDENTIALS => "Missing required API credentials"
  | INVALID_CONFIG => "Invalid configuration provided"
  | PLUGIN_LOAD_FAILED => "Failed to load plugin"
  | QUEUE_EMPTY => "Queue is empty"
  | TRACK_NOT_FOUND => "Track not found in queue"
  | INVALID_INDEX => "Invalid queue index"
  | UNKNOWN_ERROR => "An unknown error occurred"
  | TIMEOUT => "Operation timed out"
  | RATE_LIMITED => "Rate limited by service"

/-- `ErrorHandler.recoverableCodes`. -/
def recoverableCodes : List ErrorCode :=
  [NO_RESULTS, SEARCH_FAILED, TRACK_FAILED, TIMEOUT, RATE_LIMITED,
   QUEUE_EMPTY, TRACK_NOT_FOUND, INVALID_INDEX]

/-- `ErrorHandler.errorSuggestions` (codes absent from the record yield `[]`,
as `errorSuggestions[code] || []` does). -/
def errorSuggestions : ErrorCode → List String
  | CONNECTION_FAILED =>
      ["Check if Lavalink server is running",
       "Verify server address and port",
       "Check firewall settings"]
  | NODE_UNAVAILABLE =>
      ["Add more Lavalink nodes",
       "Check node health status",
       "Verify node configuration"]
  | PLATFORM_UNAVAILABLE =>
      ["Configure LavaSrc plugin in Lavalink",
       "Add required API credentials",
       "Check platform-specific settings"]
  | MISSING_CREDENTIALS =>
      ["Add API keys to Lavalink configuration",
       "Verify credential validity",
       "Check credential permissions"]
  | INVALID_URL =>
      ["Check URL format",
       "Ensure platform is supported",
       "Try a different URL from the platform"]
  | VOICE_CONNECTION_FAILED =>
      ["Check bot permissions in voice channel",
       "Verify user is in a voice channel",
       "Try rejoining the voice channel"]
  | NO_RESULTS =>
      ["Try a different search term",
       "Check spelling and formatting",
       "Use platform-specific search"]
  | _ => []

end ErrorHandler

/-- The `KazaError` structured error object.  The `details` payload and the
`timestamp : Date` field of the TypeScript interface are not observed by any
verified property and are omitted; `isKazaError`'s `timestamp instanceof Date`
check is modelled by the `JSError.kaza` constructor below (every error built
by `createError` carries a `Date`). -/
structure KazaError where
  code : ErrorCode
  message : String
  recoverable : Bool
  suggestions : List String
  deriving DecidableEq, Repr

/-- A thrown JavaScript value: either a structured `KazaError` or any other
error (carrying its message). -/
inductive JSError where
  | kaza (e : KazaError)
  | other (message : String)
  deriving DecidableEq, Repr

/-- `ErrorHandler.isKazaError` — duck-typing check (`code`/`message` strings,
`timestamp instanceof Date`), true exactly for errors built by `createError`. -/
def isKazaError : JSError → Bool
  | .kaza _ => true
  | .other _ => false

/-- `ErrorHandler.createError(code, details?, customMessage?)`. -/
def ErrorHandler.createError (code : ErrorCode) (customMessage : Option String := none) :
    KazaError :=
  { code := code
    message := customMessage.getD (ErrorHandler.errorMessages code)
    recoverable := ErrorHandler.recoverableCodes.contains code
    suggestions := ErrorHandler.errorSuggestions code }

/-- One attempt-indexed operation, as passed to `ErrorHandler.retry`:
the attempt number maps to the settled outcome of `operation()` on that call. -/
def RetryOp (α : Type) := Nat → Except JSError α

/-- Loop body of `ErrorHandler.retry`: `attempt` is the current loop counter,
`fuel` the number of remaining loop iterations (`maxRetries + 1 - attempt`,
so the `fuel = 0` branch is unreachable from `retry`).  Returns the settled
outcome together with the number of `operation()` calls made and the list of
backoff delays (`baseDelay * 2 ^ attempt`) awaited between attempts. -/
def retryGo {α : Type} (op : RetryOp α) (maxRetries baseDelay : Nat)
    (retryableErrors : List ErrorCode) :
    Nat → Nat → Except JSError α × Nat × List Nat
  | _, 0 => (.error (.other "retry loop exhausted"), 0, [])
  | attempt, fuel + 1 =>
    match op attempt with
    | .ok v => (.ok v, 1, [])
    | .error e =>
      if attempt = maxRetries then (.error e, 1, [])
      else
        let isRetryable :=
          isKazaError e &&
            (match e with
             | .kaza k => retryableErrors.contains k.code
             | .other _ => false)
        if !isRetryable then (.error e, 1, [])
        else
          let rest := retryGo op maxRetries baseDelay retryableErrors (attempt + 1) fuel
          (rest.1, rest.2.1 + 1, baseDelay * 2 ^ attempt :: rest.2.2)

/-- `ErrorHandler.retry(operation, maxRetries, baseDelay, retryableErrors)`:
runs `operation` for `attempt = 0, 1, ..., maxRetries`, stopping early on
success or on a non-retryable error, sleeping `baseDelay * 2 ^ attempt`
between attempts, and rethrowing the last error on exhaustion. -/
def ErrorHandler.retry {α : Type} (op : RetryOp α) (maxRetries : Nat)
    (baseDelay : Nat := 1000)
    (retryableErrors : List ErrorCode := [.TIMEOUT, .CONNECTION_FAILED]) :
    Except JSError α × Nat × List Nat :=
  retryGo op maxRetries baseDelay retryableErrors 0 (maxRetries + 1)

end Kaza

namespace Kaza

/-! ## URL/platform classifier — static `URLParser` (`part_005`)

Each platform's anchored regular expression is hand-translated into a
deterministic matcher over `List Char`.  A matcher returns the first two
capture groups (`match[1]`, `match[2]`) on success; the translations follow
the regex alternation/greediness order so that they accept exactly the same
strings and produce the same groups. -/

/-- Consume an exact literal from the front of a character list. -/
def dropLit? : List Char → List Char → Option (List Char)
  | [], s => some s
  | _ :: _, [] => none
  | c :: cs, d :: ds => if c = d then dropLit? cs ds else none

/-- Consume an optional literal (regex `(?:lit)?`): keep the input unchanged
when the literal is not present. -/
def dropOpt (lit : List Char) (s : List Char) : List Char :=
  (dropLit? lit s).getD s

/-- Greedy span: longest front segment satisfying `p`, plus the rest. -/
def spanP (p : Char → Bool) : List Char → List Char × List Char
  | [] => ([], [])
  | c :: cs =>
    if p c then
      let r := spanP p cs
      (c :: r.1, r.2)
    else ([], c :: cs)

/-- Regex `p+` (greedy, at least one character). -/
def takeWhile1? (p : Char → Bool) (s : List Char) : Option (List Char × List Char) :=
  match spanP p s with
  | ([], _) => none
  | (m, r) => some (m, r)

/-- Regex tail `(?:\?.*)?$`: the rest is empty or a query string. -/
def querySuffixOk : List Char → Bool
  | [] => true
  | c :: _ => c = '?'

/-- Regex tail `(?:\&.*)?$`: the rest is empty or starts with an ampersand. -/
def ampSuffixOk : List Char → Bool
  | [] => true
  | c :: _ => c = '&'

/-- Regex head `^https?:\/\/`. -/
def dropHttp? (s : List Char) : Option (List Char) := do
  let s1 ← dropLit? "http".data s
  let s2 := dropOpt "s".data s1
  dropLit? "://".data s2

/-- Character class `[a-zA-Z0-9]`. -/
def isAlnum (c : Char) : Bool := c.isAlpha || c.isDigit

/-- Character classes `[a-zA-Z0-9_-]` and `[\w-]`. -/
def isIdChar (c : Char) : Bool := isAlnum c || c = '_' || c = '-'

/-- First matching word of an alternation (the alternatives used below are
pairwise prefix-incompatible, so first-match equals regex alternation). -/
def segAlt : List String → List Char → Option (String × List Char)
  | [], _ => none
  | w :: ws, s =>
    match dropLit? w.data s with
    | some r => some (w, r)
    | none => segAlt ws s

/-- `spotify` pattern:
`^https?:\/\/(?:open\.)?spotify\.com\/(track|album|playlist|artist)\/([a-zA-Z0-9]+)(?:\?.*)?$`. -/
def spotifyMatch (url : String) : Option (Option String × Option String) := do
  let s ← dropHttp? url.data
  let s := dropOpt "open.".data s
  let s ← dropLit? "spotify.com/".data s
  let (seg, s) ← segAlt ["track", "album", "playlist", "artist"] s
  let s ← dropLit? "/".data s
  let (idcs, s) ← takeWhile1? isAlnum s
  if querySuffixOk s then some (some seg, some (String.mk idcs)) else none

/-- Anchored tail `\/(album|song|playlist)\/[^\/]+\/(\d+)(?:\?.*)?$` tried at
one position (used by the `applemusic` matcher). -/
def amHere? (s : List Char) : Option String := do
  let s ← dropLit? "/".data s
  let (w, s) ← segAlt ["album", "song", "playlist"] s
  let s ← dropLit? "/".data s
  let (_, s) ← takeWhile1? (fun c => c ≠ '/') s
  let s ← dropLit? "/".data s
  let (_, s) ← takeWhile1? Char.isDigit s
  if querySuffixOk s then some w else none

/-- Greedy `.*` before the `applemusic` tail: the rightmost position where the
tail matches wins, as for a greedy regex scan. -/
def amTail? : List Char → Option String
  | [] => none
  | c :: cs =>
    match amTail? cs with
    | some w => some w
    | none => amHere? (c :: cs)

/-- `applemusic` pattern:
`^https?:\/\/music\.apple\.com\/([a-z]{2})?\/?.*\/(album|song|playlist)\/[^\/]+\/(\d+)(?:\?.*)?$`.
Group 1 is the optional country code, group 2 the content-type word; the
optional groups are tried in the regex's greedy backtracking order. -/
def applemusicMatch (url : String) : Option (Option String × Option String) := do
  let s ← dropHttp? url.data
  let s ← dropLit? "music.apple.com/".data s
  let tryRem := fun (cc : Option String) (rem : List Char) =>
    (amTail? rem).map (fun w => (cc, some w))
  let noCountry :=
    match s with
    | '/' :: r2 => tryRem none r2 <|> tryRem none s
    | _ => tryRem none s
  match s with
  | a :: b :: rest =>
    if a.isLower && b.isLower then
      let cc := String.mk [a, b]
      (match rest with
       | '/' :: r2 => tryRem (some cc) r2 <|> tryRem (some cc) rest
       | _ => tryRem (some cc) rest) <|> noCountry
    else noCountry
  | _ => noCountry

/-- `youtube` pattern:
`^https?:\/\/(?:www\.)?(?:youtube\.com\/watch\?v=|youtu\.be\/)([a-zA-Z0-9_-]+)(?:\&.*)?$`. -/
def youtubeMatch (url : String) : Option (Option String × Option String) := do
  let s ← dropHttp? url.data
  let s := dropOpt "www.".data s
  let s ← dropLit? "youtube.com/watch?v=".data s <|> dropLit? "youtu.be/".data s
  let (idcs, s) ← takeWhile1? isIdChar s
  if ampSuffixOk s then some (some (String.mk idcs), none) else none

/-- `youtubeMusic` pattern:
`^https?:\/\/music\.youtube\.com\/watch\?v=([a-zA-Z0-9_-]+)(?:\&.*)?$`. -/
def youtubeMusicMatch (url : String) : Option (Option String × Option String) := do
  let s ← dropHttp? url.data
  let s ← dropLit? "music.youtube.com/watch?v=".data s
  let (idcs, s) ← takeWhile1? isIdChar s
  if ampSuffixOk s then some (some (String.mk idcs), none) else none

/-- `soundcloud` pattern (no capture groups):
`^https?:\/\/(?:www\.)?soundcloud\.com\/[\w-]+\/[\w-]+(?:\?.*)?$`. -/
def soundcloudMatch (url : String) : Option (Option String × Option String) := do
  let s ← dropHttp? url.data
  let s := dropOpt "www.".data s
  let s ← dropLit? "soundcloud.com/".data s
  let (_, s) ← takeWhile1? isIdChar s
  let s ← dropLit? "/".data s
  let (_, s) ← takeWhile1? isIdChar s
  if querySuffixOk s then some (none, none) else none

/-- Core of the `deezer` pattern after the optional country segment:
`(?:track|album|playlist)\/(\d+)(?:\?.*)?$`. -/
def deezerCore (s : List Char) : Option (Option String × Option String) := do
  let (_, s) ← segAlt ["track", "album", "playlist"] s
  let s ← dropLit? "/".data s
  let (d, s) ← takeWhile1? Char.isDigit s
  if querySuffixOk s then some (some (String.mk d), none) else none

/-- `deezer` pattern:
`^https?:\/\/(?:www\.)?deezer\.com\/(?:[a-z]{2}\/)?(?:track|album|playlist)\/(\d+)(?:\?.*)?$`. -/
def deezerMatch (url : String) : Option (Option String × Option String) := do
  let s ← dropHttp? url.data
  let s := dropOpt "www.".data s
  let s ← dropLit? "deezer.com/".data s
  let withCountry :=
    match s with
    | a :: b :: '/' :: rest =>
      if a.isLower && b.isLower then deezerCore rest else none
    | _ => none
  withCountry <|> deezerCore s

/-- `tidal` pattern:
`^https?:\/\/(?:www\.)?tidal\.com\/browse\/(track|album|playlist)\/(\d+)(?:\?.*)?$`. -/
def tidalMatch (url : String) : Option (Option String × Option String) := do
  let s ← dropHttp? url.data
  let s := dropOpt "www.".data s
  let s ← dropLit? "tidal.com/browse/".data s
  let (w, s) ← segAlt ["track", "album", "playlist"] s
  let s ← dropLit? "/".data s
  let (d, s) ← takeWhile1? Char.isDigit s
  if querySuffixOk s then some (some w, some (String.mk d)) else none

/-- Core of the `qobuz` pattern after the optional locale segment:
`(?:album|track)\/[\w-]+\/(\d+)(?:\?.*)?$`. -/
def qobuzCore (s : List Char) : Option (Option String × Option String) := do
  let (_, s) ← segAlt ["album", "track"] s
  let s ← dropLit? "/".data s
  let (_, s) ← takeWhile1? isIdChar s
  let s ← dropLit? "/".data s
  let (d, s) ← takeWhile1? Char.isDigit s
  if querySuffixOk s then some (some (String.mk d), none) else none

/-- `qobuz` pattern:
`^https?:\/\/(?:www\.)?qobuz\.com\/(?:[a-z]{2}-[a-z]{2}\/)?(?:album|track)\/[\w-]+\/(\d+)(?:\?.*)?$`. -/
def qobuzMatch (url : String) : Option (Option String × Option String) := do
  let s ← dropHttp? url.data
  let s := dropOpt "www.".data s
  let s ← dropLit? "qobuz.com/".data s
  let withLocale :=
    match s with
    | a :: b :: '-' :: c :: d :: '/' :: rest =>
      if a.isLower && b.isLower && c.isLower && d.isLower then qobuzCore rest else none
    | _ => none
  withLocale <|> qobuzCore s

/-- `bandcamp` pattern (no capture groups):
`^https?:\/\/[\w-]+\.bandcamp\.com\/(?:track|album)\/[\w-]+(?:\?.*)?$`. -/
def bandcampMatch (url : String) : Option (Option String × Option String) := do
  let s ← dropHttp? url.data
  let (_, s) ← takeWhile1? isIdChar s
  let s ← dropLit? ".bandcamp.com/".data s
  let (_, s) ← segAlt ["track", "album"] s
  let s ← dropLit? "/".data s
  let (_, s) ← takeWhile1? isIdChar s
  if querySuffixOk s then some (none, none) else none

/-- `jiosaavn` pattern:
`^https?:\/\/(?:www\.)?jiosaavn\.com\/song\/[\w-]+\/([a-zA-Z0-9]+)(?:\?.*)?$`. -/
def jiosaavnMatch (url : String) : Option (Option String × Option String) := do
  let s ← dropHttp? url.data
  let s := dropOpt "www.".data s
  let s ← dropLit? "jiosaavn.com/song/".data s
  let (_, s) ← takeWhile1? isIdChar s
  let s ← dropLit? "/".data s
  let (d, s) ← takeWhile1? isAlnum s
  if querySuffixOk s then some (some (String.mk d), none) else none

/-- One entry of `URLParser.platformPatterns`: platform key, search-engine
string (`searchPrefix` in the source) and the compiled pattern. -/
structure PlatformCfg where
  name : String
  searchPre : String
  matcher : String → Option (Option String × Option String)

/-- `URLParser.platformPatterns`, in object-literal insertion order (the order
`Object.entries` iterates in `parseURL`). -/
def platformPatterns : List PlatformCfg :=
  [⟨"spotify", "spsearch:", spotifyMatch⟩,
   ⟨"applemusic", "amsearch:", applemusicMatch⟩,
   ⟨"youtube", "ytsearch:", youtubeMatch⟩,
   ⟨"youtubeMusic", "ytmsearch:", youtubeMusicMatch⟩,
   ⟨"soundcloud", "scsearch:", soundcloudMatch⟩,
   ⟨"deezer", "dzsearch:", deezerMatch⟩,
   ⟨"tidal", "tidal:", tidalMatch⟩,
   ⟨"qobuz", "qobuz:", qobuzMatch⟩,
   ⟨"bandcamp", "bandcamp:", bandcampMatch⟩,
   ⟨"jiosaavn", "jiosaavn:", jiosaavnMatch⟩]

/-- First platform (in table order) whose pattern matches, with its groups. -/
def firstMatchGo : List PlatformCfg → String → Option (PlatformCfg × Option String × Option String)
  | [], _ => none
  | cfg :: rest, url =>
    match cfg.matcher url with
    | some g => some (cfg, g)
    | none => firstMatchGo rest url

/-- The `for ... of Object.entries(this.platformPatterns)` scan in `parseURL`. -/
def firstMatch (url : String) : Option (PlatformCfg × Option String × Option String) :=
  firstMatchGo platformPatterns url

/-- The content types of `URLParseResult.type`. -/
inductive ContentType where
  | track | album | playlist | artist | unknown
  deriving DecidableEq, Repr

/-- ASCII lower-casing (JavaScript `toLowerCase`; all strings compared in this
development are ASCII). -/
def toLowerStr (s : String) : String := String.mk (s.data.map Char.toLower)

/-- `URLParser.determineType`: map a URL path segment to a content type,
defaulting to `track`. -/
def determineType (segment : String) : ContentType :=
  let l := toLowerStr segment
  if l = "track" then .track
  else if l = "song" then .track
  else if l = "album" then .album
  else if l = "playlist" then .playlist
  else if l = "artist" then .artist
  else .track

/-- JavaScript `String.prototype.trim` whitespace (the ASCII cases plus
no-break space; the remaining Unicode space characters do not occur in any
input considered here). -/
def jsWhitespace (c : Char) : Bool :=
  c = ' ' || c = '\t' || c = '\n' || c = '\r' || c = '\x0b' || c = '\x0c' || c = ' '

/-- JavaScript `input.trim()`. -/
def jsTrim (s : String) : String :=
  String.mk (((s.data.dropWhile jsWhitespace).reverse.dropWhile jsWhitespace).reverse)

/-- Split off a WHATWG URL scheme: one ASCII letter followed by
letters/digits/`+`/`-`/`.`, then a colon; returns the lower-cased scheme and
the remainder. -/
def jsSchemeOf? (s : String) : Option (String × List Char) :=
  match s.data with
  | [] => none
  | c :: cs =>
    if !c.isAlpha then none
    else
      let r := spanP (fun d => isAlnum d || d = '+' || d = '-' || d = '.') cs
      match r.2 with
      | ':' :: tail => some (toLowerStr (String.mk (c :: r.1)), tail)
      | _ => none

/-- The WHATWG special schemes. -/
def specialSchemes : List String := ["http", "https", "ws", "wss", "ftp", "file"]

/-- Modelled from the spec: JavaScript's built-in `new URL(input)` constructor
(`URLParser.isURL` wraps it in try/catch; the builtin itself is not repository
code).  A string parses as a URL when it starts with a well-formed scheme and,
for the special network schemes, contains a nonempty host after the slashes. -/
def jsURLcanParse (s : String) : Bool :=
  match jsSchemeOf? s with
  | none => false
  | some (sch, tail) =>
    if specialSchemes.contains sch && sch ≠ "file" then
      let afterSlashes := (spanP (fun c => c = '/' || c = '\\') tail).2
      let host := (spanP (fun c => c ≠ '/' && c ≠ '?' && c ≠ '#' && c ≠ '\\') afterSlashes).1
      !host.isEmpty
    else true

/-- `URLParser.isValidHTTPUrl`: `new URL(url)` succeeds with an `http:` or
`https:` protocol. -/
def isValidHTTPUrl (url : String) : Bool :=
  match jsSchemeOf? url with
  | none => false
  | some (sch, _) => jsURLcanParse url && (sch = "http" || sch = "https")

/-- The result record of `URLParser.parse` (`searchPre` models the source's
`searchPrefix` field). -/
structure URLParseResult where
  platform : String
  type : ContentType
  id : String
  url : String
  searchPre : String
  isValidUrl : Bool
  deriving DecidableEq, Repr

namespace URLParser

/-- `URLParser.parseURL` (private): scan the platform table; an unmatched URL
is classified as a direct HTTP stream. -/
def parseURLimpl (url : String) : URLParseResult :=
  match firstMatch url with
  | some (cfg, g1, g2) =>
    { platform := cfg.name
      type := determineType (jsOrS g1 "track")
      id := jsOrS (jsOrO g2 g1) ""
      url := url
      searchPre := cfg.searchPre
      isValidUrl := true }
  | none =>
    { platform := "http", type := .track, id := "", url := url
      searchPre := "", isValidUrl := isValidHTTPUrl url }

/-- `URLParser.parse`: trim the input, dispatch URLs to `parseURL`, and fall
back to a YouTube search classification for non-URL queries. -/
def parse (input : String) : URLParseResult :=
  let t := jsTrim input
  if jsURLcanParse t then parseURLimpl t
  else
    { platform := "youtube", type := .unknown, id := "", url := t
      searchPre := "ytsearch:", isValidUrl := false }

/-- `URLParser.getSearchEngine`: platform key to engine token, defaulting to
`ytsearch`. -/
def getSearchEngine (platform : String) : String :=
  if platform = "spotify" then "spsearch"
  else if platform = "applemusic" then "amsearch"
  else if platform = "youtube" then "ytsearch"
  else if platform = "youtubeMusic" then "ytmsearch"
  else if platform = "soundcloud" then "scsearch"
  else if platform = "deezer" then "dzsearch"
  else if platform = "tidal" then "tidal"
  else if platform = "qobuz" then "qobuz"
  else if platform = "bandcamp" then "bandcamp"
  else if platform = "jiosaavn" then "jiosaavn"
  else "ytsearch"

end URLParser

end Kaza

namespace Kaza

/-! ## Search orchestrator — `EnhancedSearchManager` in
`src/Managers/EnhancedSearchManager.ts`

The upstream node pool is a parameter: a resolver maps the index of the
upstream `node.rest.resolve` call (process-wide, in call order) and the
qualified query to an outcome.  `ErrorHandler.withTimeout`'s race is part of
the outcome (`timeout` means the timer settled first).  The search statistics
counters (`searchStats`) only feed reporting, never control flow, and are not
modelled; instead the state records the upstream call count, the queries
sent upstream, and the backoff delays awaited. -/

/-- JavaScript truthiness of an optional string. -/
def truthyS : Option String → Bool
  | none => false
  | some s => s ≠ ""

/-- `pre` is a prefix of `s`. -/
def startsWithL : List Char → List Char → Bool
  | [], _ => true
  | _ :: _, [] => false
  | c :: cs, d :: ds => c = d && startsWithL cs ds

/-- JavaScript `s.includes(sub)`. -/
def includesL (sub : List Char) : List Char → Bool
  | [] => sub.isEmpty
  | c :: cs => startsWithL sub (c :: cs) || includesL sub cs

/-- JavaScript `s.includes(sub)` on strings. -/
def strIncludes (s sub : String) : Bool := includesL sub.data s.data

/-- The `track.pluginInfo` payload fields read by the track enhancement. -/
structure PluginInfoJs where
  albumName : Option String := none
  artistUrl : Option String := none
  albumUrl : Option String := none
  previewUrl : Option String := none
  isrc : Option String := none
  deriving DecidableEq, Repr

/-- The `info` block of an upstream (Lavalink) track. -/
structure UpTrackInfo where
  identifier : String := ""
  title : String := ""
  author : String := ""
  length : Nat := 0
  uri : Option String := none
  artworkUrl : Option String := none
  deriving DecidableEq, Repr

/-- An upstream track: encoded handle plus info block and plugin payload. -/
structure UpTrack where
  encoded : String
  info : UpTrackInfo
  pluginInfo : Option PluginInfoJs := none
  deriving DecidableEq, Repr

/-- The upstream load result (`node.rest.resolve` response): load-type tag,
possibly-absent track list, and `playlistInfo?.name`. -/
structure LoadResult where
  loadType : String
  tracks : Option (List UpTrack) := none
  playlistName : Option String := none
  deriving DecidableEq, Repr

/-- Outcome of one upstream `node.rest.resolve` call raced against the
`withTimeout` timer: the resolver settles with a (possibly `null`) result,
rejects with an error, or the timeout timer wins the race. -/
inductive ResolveOutcome where
  | ok (r : Option LoadResult)
  | throws (e : JSError)
  | timeout
  deriving DecidableEq, Repr

/-- The upstream node pool, indexed by upstream call number. -/
def Resolver := Nat → String → ResolveOutcome

/-- The recognized search options (`EnhancedSearchOptions`).  `requester` is
an opaque pass-through tag; an absent `fallbackEngines` behaves as `[]`. -/
structure SOpts where
  requester : Option String := none
  limit : Option Nat := none
  source : Option String := none
  timeout : Option Nat := none
  fallbackEngines : List String := []
  retryAttempts : Option Nat := none
  cacheResults : Option Bool := none
  deriving DecidableEq, Repr

/-- The enhanced per-track info produced by `performSearch`. -/
structure KTrackInfo where
  identifier : String
  title : String
  author : String
  length : Nat
  uri : Option String
  sourceName : String
  artworkUrl : Option String
  albumName : Option String
  artistUrl : Option String
  albumUrl : Option String
  preview : Option String
  isrc : Option String
  deriving DecidableEq, Repr

/-- The enhanced `KazagumoTrack` produced by `performSearch`. -/
structure KTrack where
  encoded : String
  info : KTrackInfo
  pluginInfo : Option PluginInfoJs
  requester : Option String
  searchQuery : String
  deriving DecidableEq, Repr

/-- The `KazagumoSearchResult` shape returned by `performSearch`. -/
structure KSearchResult where
  type : String
  tracks : List KTrack
  playlistName : Option String
  source : String
  deriving DecidableEq, Repr

/-- The structured exception attached to an error `SearchResult`. -/
structure SException where
  message : String
  severity : String
  code : Option ErrorCode
  suggestions : List String
  deriving DecidableEq, Repr

/-- The `EnhancedSearchResult` returned by the public `search` surface. -/
structure EnhancedSearchResult where
  type : String
  tracks : List KTrack
  playlistName : Option String := none
  source : String
  platform : Option String := none
  query : String
  searchEngine : String
  searchTime : Nat := 0
  fromCache : Bool := false
  exception : Option SException := none
  deriving DecidableEq, Repr

namespace SearchManager

/-- `normalizeSearchEngine`'s alias table (`engineMap`). -/
def engineMap : List (String × String) :=
  [("youtube", "ytsearch"), ("yt", "ytsearch"),
   ("youtubemusic", "ytmsearch"), ("ytm", "ytmsearch"),
   ("spotify", "spsearch"), ("sp", "spsearch"),
   ("applemusic", "amsearch"), ("apple", "amsearch"), ("am", "amsearch"),
   ("deezer", "dzsearch"), ("dz", "dzsearch"),
   ("soundcloud", "scsearch"), ("sc", "scsearch"),
   ("jiosaavn", "jiosaavn"), ("jio", "jiosaavn"),
   ("qobuz", "qobuz"), ("tidal", "tidal"),
   ("bandcamp", "bandcamp"), ("bc", "bandcamp"),
   ("flowery", "flowery")]

/-- `EnhancedSearchManager.normalizeSearchEngine`:
`engineMap[source.toLowerCase()] || 'ytsearch'`. -/
def normalizeSearchEngine (source : String) : String :=
  (engineMap.lookup (toLowerStr source)).getD "ytsearch"

/-- `EnhancedSearchManager.determineSearchEngine`: explicit source wins (via
normalization), else the classifier's engine for a valid URL, else the
configured default engine (`|| 'ytsearch'`). -/
def determineSearchEngine (defaultEngine : Option String) (urlInfo : URLParseResult)
    (explicitSource : Option String) : String :=
  if truthyS explicitSource then normalizeSearchEngine (explicitSource.getD "")
  else if urlInfo.isValidUrl then URLParser.getSearchEngine urlInfo.platform
  else jsOrS defaultEngine "ytsearch"

/-- `EnhancedSearchManager.formatQuery`: a URL passes through unchanged, free
text is prefixed with the engine token. -/
def formatQuery (query : String) (urlInfo : URLParseResult) (engine : String) : String :=
  if urlInfo.isValidUrl then query else engine ++ ":" ++ query

/-- UTF-8 encoding of a character (`Buffer.from(key)`). -/
def utf8Bytes (c : Char) : List Nat :=
  let n := c.toNat
  if n < 128 then [n]
  else if n < 2048 then [192 + n / 64, 128 + n % 64]
  else if n < 65536 then [224 + n / 4096, 128 + n / 64 % 64, 128 + n % 64]
  else [240 + n / 262144, 128 + n / 4096 % 64, 128 + n / 64 % 64, 128 + n % 64]

/-- The base64 alphabet. -/
def base64Table : List Char :=
  "ABCDEFGHIJKLMNOPQRSTUVWXYZabcdefghijklmnopqrstuvwxyz0123456789+/".data

/-- One base64 digit. -/
def b64c (n : Nat) : Char := base64Table.getD n 'A'

/-- Standard base64 with padding (`Buffer.prototype.toString('base64')`). -/
def base64Encode : List Nat → List Char
  | [] => []
  | [a] => [b64c (a / 4), b64c (a % 4 * 16), '=', '=']
  | [a, b] => [b64c (a / 4), b64c (a % 4 * 16 + b / 16), b64c (b % 16 * 4), '=']
  | a :: b :: c :: rest =>
    b64c (a / 4) :: b64c (a % 4 * 16 + b / 16) :: b64c (b % 16 * 4 + c / 64) ::
      b64c (c % 64) :: base64Encode rest

/-- `EnhancedSearchManager.generateCacheKey`:
base64 of `"<query>_<source || 'default'>_<limit || 'all'>"`. -/
def generateCacheKey (query : String) (opts : SOpts) : String :=
  let limitStr : String :=
    match opts.limit with
    | none => "all"
    | some n => if n = 0 then "all" else toString n
  let key := query ++ "_" ++ jsOrS opts.source "default" ++ "_" ++ limitStr
  String.mk (base64Encode ((key.data.map utf8Bytes).flatten))

/-- One cache slot: the stored result and its creation time. -/
structure CacheEntry where
  result : EnhancedSearchResult
  timestamp : Nat
  deriving DecidableEq, Repr

/-- The `searchCache` map (association list keyed by cache key). -/
def Cache := List (String × CacheEntry)

/-- `Map.prototype.get`. -/
def cacheGet (c : Cache) (k : String) : Option CacheEntry :=
  List.lookup k c

/-- `Map.prototype.set` (replaces an existing binding). -/
def cacheSet (c : Cache) (k : String) (v : CacheEntry) : Cache :=
  (k, v) :: List.filter (fun p => p.1 ≠ k) c

/-- `cacheTimeout` — five minutes, in milliseconds. -/
def cacheTimeout : Nat := 300000

/-- `EnhancedSearchManager.getCachedResult`: return the entry only while
`Date.now() - cached.timestamp < cacheTimeout` (the clock never runs
backwards, so natural subtraction agrees with JavaScript arithmetic). -/
def getCachedResult (now : Nat) (c : Cache) (query : String) (opts : SOpts) :
    Option EnhancedSearchResult :=
  match cacheGet c (generateCacheKey query opts) with
  | some cached => if now - cached.timestamp < cacheTimeout then some cached.result else none
  | none => none

/-- `EnhancedSearchManager.extractSourceName`. -/
def extractSourceName (uri : String) : String :=
  if strIncludes uri "youtube.com" || strIncludes uri "youtu.be" then "YouTube"
  else if strIncludes uri "music.youtube.com" then "YouTube Music"
  else if strIncludes uri "spotify.com" then "Spotify"
  else if strIncludes uri "music.apple.com" then "Apple Music"
  else if strIncludes uri "deezer.com" then "Deezer"
  else if strIncludes uri "soundcloud.com" then "SoundCloud"
  else if strIncludes uri "jiosaavn.com" || strIncludes uri "saavn.com" then "JioSaavn"
  else if strIncludes uri "qobuz.com" then "Qobuz"
  else if strIncludes uri "tidal.com" then "Tidal"
  else if strIncludes uri "bandcamp.com" then "Bandcamp"
  else if startsWithL "http".data uri.data then "HTTP Stream"
  else "Unknown"

/-- `EnhancedSearchManager.getArtworkUrl`: keep a truthy artwork URL, else
derive the YouTube thumbnail, else `null`. -/
def getArtworkUrl (info : UpTrackInfo) : Option String :=
  if truthyS info.artworkUrl then info.artworkUrl
  else if info.identifier ≠ "" &&
      (match info.uri with
       | some u => strIncludes u "youtube"
       | none => false) then
    some ("https://img.youtube.com/vi/" ++ info.identifier ++ "/maxresdefault.jpg")
  else none

/-- `EnhancedSearchManager.determineResultType`. -/
def determineResultType (loadType : String) : String :=
  if loadType = "TRACK_LOADED" then "track"
  else if loadType = "PLAYLIST_LOADED" then "playlist"
  else if loadType = "SEARCH_RESULT" then "search"
  else "error"

/-- The track mapping in `performSearch` (spread of `track.info` plus derived
source name, artwork, and `pluginInfo` extracts). -/
def enhanceTrack (opts : SOpts) (query : String) (t : UpTrack) : KTrack :=
  { encoded := t.encoded
    info :=
      { identifier := t.info.identifier
        title := t.info.title
        author := t.info.author
        length := t.info.length
        uri := t.info.uri
        sourceName := extractSourceName (jsOrS t.info.uri "")
        artworkUrl := jsOrO t.info.artworkUrl (getArtworkUrl t.info)
        albumName := t.pluginInfo.bind (fun p => p.albumName)
        artistUrl := t.pluginInfo.bind (fun p => p.artistUrl)
        albumUrl := t.pluginInfo.bind (fun p => p.albumUrl)
        preview := t.pluginInfo.bind (fun p => p.previewUrl)
        isrc := t.pluginInfo.bind (fun p => p.isrc) }
    pluginInfo := some (t.pluginInfo.getD {})
    requester := opts.requester
    searchQuery := query }

/-- Success path of `performSearch`: truncate at `options.limit` (when truthy)
and enhance each track. -/
def processSearchSuccess (r : LoadResult) (opts : SOpts) (query : String) : KSearchResult :=
  let tracks0 := r.tracks.getD []
  let tracks1 :=
    match opts.limit with
    | some l => if l ≠ 0 && tracks0.length > l then tracks0.take l else tracks0
    | none => tracks0
  { type := determineResultType r.loadType
    tracks := tracks1.map (enhanceTrack opts query)
    playlistName := r.playlistName
    source := extractSourceName query }

/-- One try of the guarded body handed to `ErrorHandler.retry`: pick the best
node (throwing `NODE_UNAVAILABLE` when none is connected), run `performSearch`
under the `withTimeout` race, and convert empty/failed upstream load types
into thrown structured errors. -/
def attemptOnce (resolver : Resolver) (nodeAvailable : Bool) (idx : Nat)
    (query : String) (opts : SOpts) : Except JSError KSearchResult :=
  if !nodeAvailable then .error (.kaza (ErrorHandler.createError .NODE_UNAVAILABLE))
  else
    match resolver idx query with
    | .timeout => .error (.kaza (ErrorHandler.createError .TIMEOUT))
    | .throws e => .error e
    | .ok none => .error (.kaza (ErrorHandler.createError .NO_RESULTS))
    | .ok (some r) =>
      if r.loadType = "LOAD_FAILED" then
        .error (.kaza (ErrorHandler.createError .SEARCH_FAILED))
      else if r.loadType = "NO_MATCHES" ∨ r.tracks = none ∨ r.tracks = some [] then
        .error (.kaza (ErrorHandler.createError .NO_RESULTS))
      else .ok (processSearchSuccess r opts query)

/-- `EnhancedSearchManager.performSearchWithRetry`: retry the attempt with
`maxRetries = options.retryAttempts || 2`, base delay 1000ms, and
`[TIMEOUT, CONNECTION_FAILED]` as the retryable kinds.  (The timeout value
`options.timeout || 10000` parametrizes the race whose outcome the resolver
already reports.)  Returns the outcome, the number of upstream calls, and the
backoff delays awaited. -/
def performSearchWithRetry (resolver : Resolver) (nodeAvailable : Bool) (idx0 : Nat)
    (formattedQuery : String) (opts : SOpts) :
    Except JSError KSearchResult × Nat × List Nat :=
  let maxRetries := jsOrN opts.retryAttempts 2
  ErrorHandler.retry
    (fun attempt => attemptOnce resolver nodeAvailable (idx0 + attempt) formattedQuery opts)
    maxRetries 1000 [.TIMEOUT, .CONNECTION_FAILED]

/-- `EnhancedSearchManager.createErrorResult`. -/
def createErrorResult (query : String) (error : KazaError) (searchTime : Nat) :
    EnhancedSearchResult :=
  { type := "error"
    tracks := []
    query := query
    searchEngine := "unknown"
    searchTime := searchTime
    fromCache := false
    source := "error"
    exception := some
      { message := error.message
        severity := if error.recoverable then "common" else "fault"
        code := some error.code
        suggestions := error.suggestions } }

/-- Orchestrator state threaded through a search: the cache map plus the
instrumentation (upstream call count, queries sent upstream in order, and
backoff delays awaited). -/
structure SearchState where
  cache : Cache
  calls : Nat := 0
  callLog : List String := []
  delays : List Nat := []

/-- The per-call answer: the settled promise of `search` plus the state. -/
def SearchStep := SearchState → Except JSError EnhancedSearchResult × SearchState

/-- The `for (const fallbackEngine of options.fallbackEngines)` walk in
`search`'s catch block: each engine is retried through a recursive
`this.search` call with `source` pinned, `fallbackEngines: []` and
`retryAttempts: 1`; a thrown error continues the walk, any returned result is
returned as-is, and an exhausted walk falls through to `createErrorResult`. -/
def fallbackGo (inner : String → SOpts → SearchStep) (query : String) (opts : SOpts)
    (kazaError : KazaError) : List String → SearchStep
  | [], st => (.ok (createErrorResult query kazaError 0), st)
  | fb :: rest, st =>
    let fallbackOpts : SOpts :=
      { opts with source := some fb, fallbackEngines := [], retryAttempts := some 1 }
    match inner query fallbackOpts st with
    | (.ok r, st') => (.ok r, st')
    | (.error _, st') => fallbackGo inner query opts kazaError rest st'

/-- The body of `EnhancedSearchManager.search`, parametric in the function
used for the recursive `this.search` calls of the fallback walk.  All the
elapsed-time stamps (`searchTime`) are 0 in this model: the wall clock `now`
is constant during one public call. -/
def searchCore (resolver : Resolver) (nodeAvailable : Bool) (defaultEngine : Option String)
    (now : Nat) (inner : String → SOpts → SearchStep) (query : String) (opts : SOpts) :
    SearchStep := fun st =>
  let hit :=
    if opts.cacheResults ≠ some false then getCachedResult now st.cache query opts
    else none
  match hit with
  | some cached => (.ok { cached with fromCache := true, searchTime := 0 }, st)
  | none =>
    let urlInfo := URLParser.parse query
    let searchEngine := determineSearchEngine defaultEngine urlInfo opts.source
    let formattedQuery := formatQuery query urlInfo searchEngine
    let out := performSearchWithRetry resolver nodeAvailable st.calls formattedQuery opts
    let st : SearchState :=
      { st with
        calls := st.calls + out.2.1
        callLog := st.callLog ++ List.replicate out.2.1 formattedQuery
        delays := st.delays ++ out.2.2 }
    match out.1 with
    | .ok r =>
      let enhanced : EnhancedSearchResult :=
        { type := r.type, tracks := r.tracks, playlistName := r.playlistName
          source := r.source, platform := some urlInfo.platform, query := query
          searchEngine := searchEngine, searchTime := 0, fromCache := false
          exception := none }
      let st :=
        if 0 < r.tracks.length ∧ opts.cacheResults ≠ some false then
          { st with cache := cacheSet st.cache (generateCacheKey query opts) ⟨enhanced, now⟩ }
        else st
      (.ok enhanced, st)
    | .error e =>
      let kazaError :=
        match e with
        | .kaza k => k
        | .other _ => ErrorHandler.createError .SEARCH_FAILED
      fallbackGo inner query opts kazaError opts.fallbackEngines st

/-- Placeholder for the recursion depth the source can never reach: every
recursive `this.search` call passes `fallbackEngines: []`, so the fallback
walk of such a call iterates zero times and `search1` below never invokes
this function. -/
def deadSearch : String → SOpts → SearchStep := fun q _ st =>
  (.ok (createErrorResult q (ErrorHandler.createError .UNKNOWN_ERROR) 0), st)

/-- `search` as invoked recursively by the fallback walk (always with
`fallbackEngines = []`, hence `deadSearch` is unreachable from it). -/
def search1 (resolver : Resolver) (nodeAvailable : Bool) (defaultEngine : Option String)
    (now : Nat) : String → SOpts → SearchStep :=
  searchCore resolver nodeAvailable defaultEngine now deadSearch

/-- The public `EnhancedSearchManager.search(query, options)` surface. -/
def search (resolver : Resolver) (nodeAvailable : Bool) (defaultEngine : Option String)
    (now : Nat) (query : String) (opts : SOpts) : SearchStep :=
  searchCore resolver nodeAvailable defaultEngine now
    (search1 resolver nodeAvailable defaultEngine now) query opts

end SearchManager

end Kaza

namespace Kaza

/-! ## Queue — `KazagumoQueue` in `src/Managers/KazagumoQueue.ts`

The queue is generic in the track type (the code treats tracks as opaque
objects here).  The `RepeatMode` enum it imports from `../types` is not among
the provided sources. -/

namespace QueueSrc

/-- Modelled from the spec: the `RepeatMode` enum imported by
`src/Managers/KazagumoQueue.ts` is declared in a module missing from the
sources; the spec describes a tri-state off/track/queue repeat mode, modelled
as the three distinct values 0/1/2 (`getNext` only compares for equality). -/
def RM_NONE : Nat := 0

/-- Modelled from the spec: `RepeatMode.TRACK`. -/
def RM_TRACK : Nat := 1

/-- Modelled from the spec: `RepeatMode.QUEUE`. -/
def RM_QUEUE : Nat := 2

/-- The queue state of `src/Managers/KazagumoQueue.ts`. -/
structure KQueue (α : Type) where
  tracks : List α := []
  previous : List α := []
  repeatMode : Nat := RM_NONE
  shuffled : Bool := false
  deriving DecidableEq, Repr

variable {α : Type}

/-- `KazagumoQueue.removeFirst`: `this.tracks.shift() || null`. -/
def removeFirst (q : KQueue α) : Option α × KQueue α :=
  (q.tracks.head?, { q with tracks := q.tracks.tail })

/-- `KazagumoQueue.getNext`: early-return `null` on an empty queue; in
track-repeat mode return the head without consuming it; otherwise shift the
head, with a queue-repeat restart branch guarded on the shifted element being
absent. -/
def getNext (q : KQueue α) : Option α × KQueue α :=
  if q.tracks.isEmpty then (none, q)
  else if q.repeatMode = RM_TRACK then (q.tracks.head?, q)
  else
    let r := removeFirst q
    match r.1 with
    | some t => (some t, r.2)
    | none =>
      if q.repeatMode = RM_QUEUE ∧ 0 < q.previous.length then
        let q2 : KQueue α := { r.2 with tracks := q.previous, previous := [] }
        let r2 := removeFirst q2
        (r2.1, r2.2)
      else (none, r.2)

/-- `KazagumoQueue.addToPrevious`: push and keep only the last 10. -/
def addToPrevious (q : KQueue α) (t : α) : KQueue α :=
  let p := q.previous ++ [t]
  { q with previous := if p.length > 10 then p.tail else p }

end QueueSrc

/-! ## Queue — the event-emitter `KazagumoQueue` (`part_003`)

This is the queue variant with a separately retained `originalOrder` and an
index-based cursor.  Its event emissions (`trackAdd`, `trackNext`, ...) notify
listeners only and do not change the queue state; they are not modelled. -/

namespace Queue3

/-- The queue state of the `part_003` `KazagumoQueue` (`rep` models the
source's `repeat` field, which is a reserved word in Lean). -/
structure EQueue (α : Type) where
  tracks : List α := []
  current : Option α := none
  rep : Nat := 0
  shuffle : Bool := false
  size : Nat := 0
  currentIndex : Nat := 0
  originalOrder : List α := []
  deriving DecidableEq, Repr

variable {α : Type}

/-- `KazagumoQueue.add`: push each track onto both the live order and the
retained original order, then refresh `size`. -/
def add (q : EQueue α) (ts : List α) : EQueue α :=
  let tracks := q.tracks ++ ts
  { q with tracks := tracks, originalOrder := q.originalOrder ++ ts, size := tracks.length }

/-- `KazagumoQueue.next`: track-repeat replays `current`; queue-repeat resets
the cursor at the end of the sequence; otherwise the cursor pre-increments. -/
def next (q : EQueue α) : Option α × EQueue α :=
  if q.tracks.length = 0 then (none, q)
  else
    let step : Option α × EQueue α :=
      if q.rep = 1 ∧ q.current.isSome then (q.current, q)
      else if q.rep = 2 ∧ q.tracks.length - 1 ≤ q.currentIndex then
        (q.tracks.get? 0, { q with currentIndex := 0 })
      else
        (q.tracks.get? (q.currentIndex + 1), { q with currentIndex := q.currentIndex + 1 })
    match step.1 with
    | some t => (some t, { step.2 with current := some t })
    | none => (none, step.2)

/-- `KazagumoQueue.setRepeat`: clamp the mode into `[0, 2]`. -/
def setRepeat (q : EQueue α) (mode : Nat) : EQueue α :=
  { q with rep := min 2 (max 0 mode) }

/-- `array[i]`/`array[j]` swap with the source's `if (temp && itemJ)` guard
(out-of-range indices leave the array unchanged). -/
def swapL (l : List α) (i j : Nat) : List α :=
  match l.get? i, l.get? j with
  | some a, some b => (l.set i b).set j a
  | _, _ => l

/-- The Fisher–Yates loop of `shuffleArray`, for `i = k+1` down to `1`; the
random draw `Math.floor(Math.random() * (i + 1))` is an arbitrary oracle value
reduced into the range `[0, i]`. -/
def fyGo (rand : Nat → Nat) : Nat → List α → List α
  | 0, a => a
  | k + 1, a => fyGo rand k (swapL a (k + 1) (rand (k + 1) % (k + 2)))

/-- `KazagumoQueue.shuffleArray` (Fisher–Yates over the live track order). -/
def shuffleArray (rand : Nat → Nat) (a : List α) : List α :=
  fyGo rand (a.length - 1) a

/-- `KazagumoQueue.setShuffle`: set the flag, then either shuffle the live
order in place or restore `[...this.originalOrder]`. -/
def setShuffle (q : EQueue α) (enabled : Bool) (rand : Nat → Nat) : EQueue α :=
  let q := { q with shuffle := enabled }
  if enabled then { q with tracks := shuffleArray rand q.tracks }
  else { q with tracks := q.originalOrder }

/-- `KazagumoQueue.clear`. -/
def clear (q : EQueue α) : EQueue α :=
  { q with tracks := [], originalOrder := [], currentIndex := 0, size := 0, current := none }

end Queue3

/-! ## Player teardown — `KazagumoPlayer.destroy` (`part_004`)

The player state carries the fields `destroy` reads or writes; the external
Shoukaku player is represented by whether it is present and by a count of
`stopTrack` calls issued to it (`destroy` swallows `stopTrack` errors, so the
call either way returns normally).  Event delivery is modelled by recording,
for each `emit`, how many registered listeners observe it;
`removeAllListeners()` empties the registry. -/

namespace Player4

/-- The `KazagumoPlayer` state read or written by `destroy`. -/
structure PlayerState (α : Type) where
  shoukakuPresent : Bool := true
  positionInterval : Option Nat := none
  isConnected : Bool := false
  playing : Bool := false
  paused : Bool := false
  currentTrack : Option α := none
  queue : Queue3.EQueue α := {}
  listeners : Nat := 0
  deriving DecidableEq, Repr

/-- Externally observable effects of player teardown. -/
structure Effects where
  stopTrackCalls : Nat := 0
  emits : List (String × Nat) := []
  deriving DecidableEq, Repr

variable {α : Type}

/-- `KazagumoPlayer.stopPositionTracking`: clear and release the interval. -/
def stopPositionTracking (s : PlayerState α) : PlayerState α :=
  { s with positionInterval := none }

/-- `KazagumoPlayer.destroy`: stop the position timer; ask the node to stop
the current track only when connected (ignoring errors); reset the playback
state; clear the queue; emit `playerDestroy` to the currently registered
listeners; remove all listeners. -/
def destroy (s : PlayerState α) (eff : Effects) : PlayerState α × Effects :=
  let s := stopPositionTracking s
  let eff :=
    if s.shoukakuPresent && s.isConnected then
      { eff with stopTrackCalls := eff.stopTrackCalls + 1 }
    else eff
  let s :=
    { s with isConnected := false, playing := false, paused := false,
             currentTrack := none, queue := Queue3.clear s.queue }
  let eff := { eff with emits := eff.emits ++ [("playerDestroy", s.listeners)] }
  let s := { s with listeners := 0 }
  (s, eff)

end Player4

end Kaza

namespace Kaza

/-! ## Shared lemmas -/

/-- A successful association-list lookup returns one of the stored values. -/
theorem lookup_mem_snd {l : List (String × String)} {k v : String}
    (h : List.lookup k l = some v) : v ∈ l.map Prod.snd := by
  induction l with
  | nil => simp [List.lookup] at h
  | cons p rest ih =>
    rcases p with ⟨a, b⟩
    rw [List.lookup] at h
    split at h
    · cases h
      simp
    · have := ih h
      simp only [List.map_cons, List.mem_cons]
      exact Or.inr this

/-! ## Claims -/

/-- C6: the cache key derived by `generateCacheKey` is a pure function of the
raw query text, the explicit `source`, and the `limit`: any two option records
agreeing on those two fields (whatever their other fields — Lean structures
have no key order, which models re-ordered-but-equal option objects) produce
identical keys, and hence hit the same cache entry on lookup. -/
theorem C6_cache_key_pure_in_query_source_limit
    (q : String) (o1 o2 : SOpts)
    (hs : o1.source = o2.source) (hl : o1.limit = o2.limit) :
    SearchManager.generateCacheKey q o1 = SearchManager.generateCacheKey q o2 ∧
    ∀ (now : Nat) (c : SearchManager.Cache),
      SearchManager.getCachedResult now c q o1 = SearchManager.getCachedResult now c q o2 := by
  have hkey : SearchManager.generateCacheKey q o1 = SearchManager.generateCacheKey q o2 := by
    simp [SearchManager.generateCacheKey, hs, hl]
  exact ⟨hkey, fun now c => by simp [SearchManager.getCachedResult, hkey]⟩

/-- Witness for C6 at concrete inputs: two option records that agree on
`source` and `limit` but differ in `requester`, `timeout`, `fallbackEngines`,
`retryAttempts` and `cacheResults` derive the same key. -/
theorem C6_cache_key_pure_in_query_source_limit_witness :
    SearchManager.generateCacheKey "never gonna"
        { source := some "spotify", limit := some 5, requester := some "user1",
          timeout := some 5000, cacheResults := some true } =
      SearchManager.generateCacheKey "never gonna"
        { source := some "spotify", limit := some 5, requester := some "user2",
          fallbackEngines := ["ytsearch"], retryAttempts := some 9 } :=
  (C6_cache_key_pure_in_query_source_limit "never gonna"
    { source := some "spotify", limit := some 5, requester := some "user1",
      timeout := some 5000, cacheResults := some true }
    { source := some "spotify", limit := some 5, requester := some "user2",
      fallbackEngines := ["ytsearch"], retryAttempts := some 9 }
    rfl rfl).1

/-- C7: for a queue populated through `add`, enabling shuffle and then
disabling it restores exactly the original insertion order, whatever values
the shuffle's random oracle produced. -/
theorem C7_shuffle_roundtrip_restores_insertion_order
    {α : Type} (ts : List α) (r1 r2 : Nat → Nat) :
    (Queue3.setShuffle (Queue3.setShuffle (Queue3.add {} ts) true r1) false r2).tracks = ts := by
  simp [Queue3.add, Queue3.setShuffle]

/-- C9: `destroy` releases the position-tracking timer, and a second
`destroy` on an already-destroyed player is a no-op on the player state,
issues no further `stopTrack` to the node, and its `playerDestroy` emission
is observed by zero listeners (the first `destroy` removed them all).  The
model's `destroy` is a total function, so the second call returns normally. -/
theorem C9_destroy_idempotent {α : Type} (s : Player4.PlayerState α) (eff : Player4.Effects) :
    (Player4.destroy s eff).1.positionInterval = none ∧
    (Player4.destroy (Player4.destroy s eff).1 (Player4.destroy s eff).2).1 =
      (Player4.destroy s eff).1 ∧
    (Player4.destroy (Player4.destroy s eff).1 (Player4.destroy s eff).2).2.stopTrackCalls =
      (Player4.destroy s eff).2.stopTrackCalls ∧
    (Player4.destroy (Player4.destroy s eff).1 (Player4.destroy s eff).2).2.emits =
      (Player4.destroy s eff).2.emits ++ [("playerDestroy", 0)] := by
  simp [Player4.destroy, Player4.stopPositionTracking, Queue3.clear]

/-- The engine tokens `normalizeSearchEngine` can produce (the values of its
alias table together with its `'ytsearch'` default). -/
def recognizedEngines : List String :=
  ["ytsearch", "ytmsearch", "spsearch", "amsearch", "dzsearch", "scsearch",
   "jiosaavn", "qobuz", "tidal", "bandcamp", "flowery"]

/-- C10: an explicit `options.source` outside the alias table silently
normalizes to `'ytsearch'` (no unsupported-platform error is raised), every
normalized engine is one of the recognized tokens, and consequently a
non-URL query with any nonempty explicit source is qualified with a
recognized engine token. -/
theorem C10_unknown_source_normalizes_to_ytsearch :
    (∀ s : String, List.lookup (toLowerStr s) SearchManager.engineMap = none →
        SearchManager.normalizeSearchEngine s = "ytsearch") ∧
    (∀ s : String, SearchManager.normalizeSearchEngine s ∈ recognizedEngines) ∧
    (∀ (s q : String) (defEng : Option String) (u : URLParseResult),
        s ≠ "" → u.isValidUrl = false →
        ∃ e ∈ recognizedEngines,
          SearchManager.formatQuery q u (SearchManager.determineSearchEngine defEng u (some s)) =
            e ++ ":" ++ q) := by
  refine ⟨fun s h => ?_, fun s => ?_, fun s q defEng u hs hu => ?_⟩
  · simp [SearchManager.normalizeSearchEngine, h]
  · unfold SearchManager.normalizeSearchEngine
    cases h : List.lookup (toLowerStr s) SearchManager.engineMap with
    | none => simp [recognizedEngines]
    | some v =>
      have hv := lookup_mem_snd h
      have : ∀ x ∈ SearchManager.engineMap.map Prod.snd, x ∈ recognizedEngines := by decide
      simpa using this v hv
  · refine ⟨SearchManager.normalizeSearchEngine s, ?_, ?_⟩
    · unfold SearchManager.normalizeSearchEngine
      cases h : List.lookup (toLowerStr s) SearchManager.engineMap with
      | none => simp [recognizedEngines]
      | some v =>
        have hv := lookup_mem_snd h
        have : ∀ x ∈ SearchManager.engineMap.map Prod.snd, x ∈ recognizedEngines := by decide
        simpa using this v hv
    · simp [SearchManager.formatQuery, hu, SearchManager.determineSearchEngine, truthyS, hs]

/-- Witness for C10: the unrecognized source `"myplatform"` yields a plain
YouTube search over the qualified query `"ytsearch:lofi beats"`. -/
theorem C10_unknown_source_normalizes_to_ytsearch_witness :
    SearchManager.normalizeSearchEngine "myplatform" = "ytsearch" ∧
    ∃ e ∈ recognizedEngines,
      SearchManager.formatQuery "lofi beats" (URLParser.parse "lofi beats")
          (SearchManager.determineSearchEngine none (URLParser.parse "lofi beats")
            (some "myplatform")) = e ++ ":" ++ "lofi beats" :=
  ⟨C10_unknown_source_normalizes_to_ytsearch.1 "myplatform" (by decide),
   C10_unknown_source_normalizes_to_ytsearch.2.2 "myplatform" "lofi beats" none
     (URLParser.parse "lofi beats") (by decide) (by decide)⟩

/-- C8 (code bug): with repeat mode "queue" and a three-track queue, four
successive `next()` calls do not return `t1, t2, t3, t1`.  The `part_003`
queue pre-increments its cursor and yields `t2, t3, t1, t2`; the
`src/Managers/KazagumoQueue.ts` `getNext` yields `t1, t2, t3, null`, its
queue-repeat restart branch being unreachable behind the empty-queue early
return. -/
theorem C8_repeat_queue_wraparound_bug :
    (Queue3.next (Queue3.setRepeat (Queue3.add {} [1, 2, 3]) 2) |> fun s1 =>
     Queue3.next s1.2 |> fun s2 =>
     Queue3.next s2.2 |> fun s3 =>
     Queue3.next s3.2 |> fun s4 =>
      [s1.1, s2.1, s3.1, s4.1] = [some 2, some 3, some 1, some 2] ∧
      [s1.1, s2.1, s3.1, s4.1] ≠ [some 1, some 2, some 3, some 1]) ∧
    (QueueSrc.getNext { tracks := [1, 2, 3], repeatMode := QueueSrc.RM_QUEUE } |> fun s1 =>
     QueueSrc.getNext s1.2 |> fun s2 =>
     QueueSrc.getNext s2.2 |> fun s3 =>
     QueueSrc.getNext s3.2 |> fun s4 =>
      [s1.1, s2.1, s3.1, s4.1] = [some 1, some 2, some 3, none] ∧
      [s1.1, s2.1, s3.1, s4.1] ≠ [some 1, some 2, some 3, some 1]) := by
  decide

end Kaza

namespace Kaza

/-- C5 counterexample: for the non-URL input `"hello world"` the classifier
reports `isValidUrl = false` and content type `unknown` as claimed, but the
platform field is `"youtube"` (the default-search platform), not
`"generic"`. -/
theorem C5_generic_platform_counterexample :
    (URLParser.parse "hello world").isValidUrl = false ∧
    (URLParser.parse "hello world").type = ContentType.unknown ∧
    (URLParser.parse "hello world").platform = "youtube" ∧
    (URLParser.parse "hello world").platform ≠ "generic" := by
  decide

/-- C5 (amended): the classifier is a total function (it never throws).  A
non-URL input classifies as `isValidUrl = false`, content type `unknown` and
platform `"youtube"` — not `"generic"` as claimed.  An input whose trimmed
form is a URL matched first by a platform whose captured type segment maps to
`track` classifies as that platform with content type `track`. -/
theorem C5_classifier_amended :
    (∀ input : String, jsURLcanParse (jsTrim input) = false →
        URLParser.parse input =
          { platform := "youtube", type := ContentType.unknown, id := "",
            url := jsTrim input, searchPre := "ytsearch:", isValidUrl := false }) ∧
    (∀ (input : String) (cfg : PlatformCfg) (g1 g2 : Option String),
        jsURLcanParse (jsTrim input) = true →
        firstMatch (jsTrim input) = some (cfg, g1, g2) →
        determineType (jsOrS g1 "track") = ContentType.track →
        (URLParser.parse input).platform = cfg.name ∧
        (URLParser.parse input).type = ContentType.track ∧
        (URLParser.parse input).isValidUrl = true) := by
  constructor
  · intro input h
    simp [URLParser.parse, h]
  · intro input cfg g1 g2 hurl hm ht
    simp [URLParser.parse, hurl, URLParser.parseURLimpl, hm, ht]

/-- Witness for C5 at concrete inputs: the Spotify track URL from the spec's
end-to-end scenario classifies as platform `"spotify"`, content type `track`,
and a bare search term classifies as the non-URL default record. -/
theorem C5_classifier_amended_witness :
    ((URLParser.parse "https://open.spotify.com/track/4iV5W9uYEdYUVa79Axb7Rh").platform
        = "spotify" ∧
      (URLParser.parse "https://open.spotify.com/track/4iV5W9uYEdYUVa79Axb7Rh").type
        = ContentType.track ∧
      (URLParser.parse "https://open.spotify.com/track/4iV5W9uYEdYUVa79Axb7Rh").isValidUrl
        = true) ∧
    URLParser.parse "hi there" =
      { platform := "youtube", type := ContentType.unknown, id := "",
        url := "hi there", searchPre := "ytsearch:", isValidUrl := false } :=
  ⟨C5_classifier_amended.2 "https://open.spotify.com/track/4iV5W9uYEdYUVa79Axb7Rh"
      ⟨"spotify", "spsearch:", spotifyMatch⟩ (some "track") (some "4iV5W9uYEdYUVa79Axb7Rh")
      (by decide) rfl (by decide),
   C5_classifier_amended.1 "hi there" (by decide)⟩

/-- The C1 scenario's upstream resolver: one track for a `bandcamp:`-qualified
query, zero tracks (a `SEARCH_RESULT` with an empty list) for everything else. -/
def c1resolver : Resolver := fun _ q =>
  if startsWithL "bandcamp".data q.data then
    .ok (some { loadType := "SEARCH_RESULT",
                tracks := some [{ encoded := "enc1", info := {} }] })
  else .ok (some { loadType := "SEARCH_RESULT", tracks := some [] })

/-- The C1 scenario: a primary search for `"song name"` with
`fallbackEngines := ["tidal", "bandcamp"]` against `c1resolver`, starting from
an empty cache. -/
def c1out :=
  SearchManager.search c1resolver true none 0 "song name"
    { fallbackEngines := ["tidal", "bandcamp"] } { cache := [] }

/-- C1 (code bug): the primary engine and the first fallback engine A
(`tidal`) yield zero tracks while the second fallback engine B (`bandcamp`)
would yield one track, yet the fallback walk returns A's error result without
ever querying B: only the primary and A queries reach the upstream (2 calls),
and the public result is the error result (`searchEngine = "unknown"`, empty
track list) — even though the resolver had a track for B's query. -/
theorem C1_fallback_stops_at_first_engine_bug :
    c1out.2.callLog = ["ytsearch:song name", "tidal:song name"] ∧
    c1out.2.calls = 2 ∧
    c1out.1.toOption.map (fun r => (r.type, r.tracks, r.searchEngine)) =
      some ("error", ([] : List KTrack), "unknown") ∧
    c1resolver 2 "bandcamp:song name" =
      .ok (some { loadType := "SEARCH_RESULT",
                  tracks := some [{ encoded := "enc1", info := {} }] }) := by
  decide

end Kaza

namespace Kaza

/-- A resolver whose every upstream call times out (the `withTimeout` timer
wins the race). -/
def c2timeoutResolver : Resolver := fun _ _ => .timeout

/-- The C2 counterexample scenario: `retryAttempts := 2` against the
always-timing-out resolver, from an empty cache. -/
def c2out :=
  SearchManager.search c2timeoutResolver true none 0 "song name"
    { retryAttempts := some 2 } { cache := [] }

/-- C2 counterexample: with `retryAttempts: 2` and a resolver that always
times out, the search performs exactly 3 upstream attempts (an initial try
plus 2 retries, with backoff delays 1000ms and 2000ms), not 2 as claimed,
before settling on the terminal recoverable timeout error. -/
theorem C2_two_attempts_counterexample :
    c2out.2.calls = 3 ∧
    c2out.2.calls ≠ 2 ∧
    c2out.2.delays = [1000, 2000] ∧
    c2out.1.toOption.map (fun r => (r.type, r.exception)) =
      some ("error",
        some { message := "Operation timed out", severity := "common",
               code := some ErrorCode.TIMEOUT, suggestions := [] }) := by
  decide

/-- A resolver that times out on its first two upstream calls and then
succeeds with the single track `t`. -/
def failTwiceResolver (t : UpTrack) : Resolver := fun i _ =>
  if i < 2 then .timeout
  else .ok (some { loadType := "SEARCH_RESULT", tracks := some [t] })

/-- A resolver whose every call resolves to a `SEARCH_RESULT` with zero
tracks — a failure kind (`NO_RESULTS`) that is not retryable. -/
def emptyResultResolver : Resolver := fun _ _ =>
  .ok (some { loadType := "SEARCH_RESULT", tracks := some [] })

/-- C2 (amended): for any query, (1) with `retryAttempts: 3` and a resolver
that times out twice then succeeds, the search succeeds after exactly 3
upstream calls, the two backoff delays being `1000 * 2 ^ attempt`; (2) with
`retryAttempts: 2` and a resolver that always times out, the search ends in
the terminal recoverable timeout error after exactly 3 attempts — one initial
try plus `retryAttempts` retries, not `retryAttempts` total attempts as
claimed; (3) a non-retryable first failure (empty result set) aborts
immediately after a single upstream call, with no backoff. -/
theorem C2_retry_backoff_amended (q : String) (t : UpTrack) :
    ((SearchManager.search (failTwiceResolver t) true none 0 q
        { retryAttempts := some 3 } { cache := [] }).2.calls = 3 ∧
      (SearchManager.search (failTwiceResolver t) true none 0 q
        { retryAttempts := some 3 } { cache := [] }).2.delays = [1000 * 2 ^ 0, 1000 * 2 ^ 1] ∧
      (SearchManager.search (failTwiceResolver t) true none 0 q
        { retryAttempts := some 3 } { cache := [] }).1.toOption.map
          (fun r => (r.type, r.tracks.length)) = some ("search", 1)) ∧
    ((SearchManager.search c2timeoutResolver true none 0 q
        { retryAttempts := some 2 } { cache := [] }).2.calls = 3 ∧
      (SearchManager.search c2timeoutResolver true none 0 q
        { retryAttempts := some 2 } { cache := [] }).2.delays = [1000 * 2 ^ 0, 1000 * 2 ^ 1] ∧
      (SearchManager.search c2timeoutResolver true none 0 q
        { retryAttempts := some 2 } { cache := [] }).1.toOption.map
          (fun r => (r.type, r.exception)) =
        some ("error",
          some { message := "Operation timed out", severity := "common",
                 code := some ErrorCode.TIMEOUT, suggestions := [] })) ∧
    ((SearchManager.search emptyResultResolver true none 0 q
        { retryAttempts := some 3 } { cache := [] }).2.calls = 1 ∧
      (SearchManager.search emptyResultResolver true none 0 q
        { retryAttempts := some 3 } { cache := [] }).2.delays = []) :=
  ⟨⟨rfl, rfl, rfl⟩, ⟨rfl, rfl, rfl⟩, rfl, rfl⟩

end Kaza

namespace Kaza

open SearchManager

/-- The C3 scenario's resolver: every upstream call resolves to a
`SEARCH_RESULT` carrying the single track `t`. -/
def c3resolver (t : UpTrack) : Resolver := fun _ _ =>
  .ok (some { loadType := "SEARCH_RESULT", tracks := some [t] })

/-- On the always-successful resolver, one attempt resolves immediately. -/
theorem c3_attemptOnce (t : UpTrack) (i : Nat) (fq : String) (opts : SOpts) :
    attemptOnce (c3resolver t) true i fq opts =
      .ok (processSearchSuccess { loadType := "SEARCH_RESULT", tracks := some [t] } opts fq) := by
  simp [attemptOnce, c3resolver]

/-- The processed single-track result has exactly one (enhanced) track,
whatever the `limit` option is. -/
theorem c3_tracks (t : UpTrack) (opts : SOpts) (fq : String) :
    (processSearchSuccess { loadType := "SEARCH_RESULT", tracks := some [t] } opts fq).tracks =
      [enhanceTrack opts fq t] := by
  unfold processSearchSuccess
  cases h : opts.limit with
  | none => simp
  | some l =>
    cases l with
    | zero => simp
    | succ k => simp

/-- A search against the always-successful resolver that misses the cache
issues exactly one upstream resolve and stores the fresh (non-cache-hit)
result under the derived key with the call's timestamp. -/
theorem c3_search_miss (t : UpTrack) (q : String) (opts : SOpts) (now : Nat)
    (st : SearchState)
    (hcr : opts.cacheResults = some true)
    (hmiss : getCachedResult now st.cache q opts = none) :
    ∃ enh st',
      search (c3resolver t) true none now q opts st = (.ok enh, st') ∧
      enh.fromCache = false ∧
      enh.tracks = [enhanceTrack opts
        (formatQuery q (URLParser.parse q)
          (determineSearchEngine none (URLParser.parse q) opts.source)) t] ∧
      st'.calls = st.calls + 1 ∧
      st'.cache = cacheSet st.cache (generateCacheKey q opts) ⟨enh, now⟩ := by
  unfold search searchCore
  simp only [hcr, hmiss]
  simp only [performSearchWithRetry, ErrorHandler.retry, jsOrN, retryGo, Nat.add_zero,
    c3_attemptOnce]
  simp only [c3_tracks, List.length_cons, List.length_nil]
  simp only [ne_eq, reduceCtorEq, not_false_eq_true, ite_true, if_true, and_true, true_and,
    Nat.lt_irrefl, Nat.zero_lt_one, if_pos, List.replicate]
  refine ⟨_, _, rfl, rfl, ?_, rfl, rfl⟩
  simp [c3_tracks]

end Kaza

namespace Kaza

open SearchManager

/-- `Map.set` followed by `Map.get` on the same key returns the entry. -/
theorem cacheGet_cacheSet (c : Cache) (k : String) (v : CacheEntry) :
    cacheGet (cacheSet c k v) k = some v := by
  unfold cacheGet cacheSet
  simp [List.lookup]

/-- Lazy-expiry invariant of `getCachedResult`: an entry older than the TTL
is never returned. -/
theorem c3_ttl_never_returned (now : Nat) (c : Cache) (q : String) (o : SOpts)
    (e : CacheEntry)
    (hget : cacheGet c (generateCacheKey q o) = some e)
    (hexp : e.timestamp + cacheTimeout < now) :
    getCachedResult now c q o = none := by
  unfold getCachedResult
  rw [hget]
  have h : ¬ (now - e.timestamp < cacheTimeout) := by
    unfold cacheTimeout at hexp ⊢
    omega
  simp [h]

/-- A search whose cache lookup hits a fresh entry returns the stored result
flagged as a cache hit, without touching the upstream (the state, and with it
the upstream call count, is unchanged). -/
theorem c3_search_hit (resolver : Resolver) (na : Bool) (defEng : Option String)
    (q : String) (opts : SOpts) (now : Nat) (st : SearchState) (e : CacheEntry)
    (hcr : opts.cacheResults = some true)
    (hget : cacheGet st.cache (generateCacheKey q opts) = some e)
    (hfresh : now - e.timestamp < cacheTimeout) :
    search resolver na defEng now q opts st =
      (.ok { e.result with fromCache := true, searchTime := 0 }, st) := by
  unfold search searchCore
  have hh : getCachedResult now st.cache q opts = some e.result := by
    unfold getCachedResult
    rw [hget]
    simp [hfresh]
  simp only [hcr, hh]
  simp

/-- C3: with `cacheResults: true`, (1) a cache entry is never returned once
`now > created + ttl` — expired entries are misses; (2) a first search issues
one upstream resolve and is not a cache hit; an identical immediate call
(within the TTL) returns the stored result flagged `fromCache` with no second
upstream resolve; once the TTL has elapsed the same call misses and issues a
fresh upstream resolve. -/
theorem C3_cache_hit_and_ttl (q : String) (t : UpTrack) (opts : SOpts)
    (now1 now2 now3 : Nat)
    (hcr : opts.cacheResults = some true)
    (h2 : now2 - now1 < 300000) (h3 : now1 + 300000 < now3) :
    (∀ (now : Nat) (c : Cache) (q' : String) (o : SOpts) (e : CacheEntry),
        cacheGet c (generateCacheKey q' o) = some e →
        e.timestamp + cacheTimeout < now →
        getCachedResult now c q' o = none) ∧
    ∃ enh st1,
      search (c3resolver t) true none now1 q opts { cache := [] } = (.ok enh, st1) ∧
      enh.fromCache = false ∧
      st1.calls = 1 ∧
      search (c3resolver t) true none now2 q opts st1 =
        (.ok { enh with fromCache := true, searchTime := 0 }, st1) ∧
      ∃ enh' st3,
        search (c3resolver t) true none now3 q opts st1 = (.ok enh', st3) ∧
        enh'.fromCache = false ∧
        st3.calls = 2 := by
  refine ⟨c3_ttl_never_returned, ?_⟩
  have hmiss1 : getCachedResult now1 ({ cache := [] } : SearchState).cache q opts = none := rfl
  obtain ⟨enh, st1, hs1, hfc1, _, hcalls1, hcache1⟩ :=
    c3_search_miss t q opts now1 { cache := [] } hcr hmiss1
  have hget1 : cacheGet st1.cache (generateCacheKey q opts) =
      some ⟨enh, now1⟩ := by
    rw [hcache1]
    exact cacheGet_cacheSet _ _ _
  have hcalls1' : st1.calls = 1 := by
    rw [hcalls1]
  refine ⟨enh, st1, hs1, hfc1, hcalls1', ?_, ?_⟩
  · exact c3_search_hit (c3resolver t) true none q opts now2 st1 ⟨enh, now1⟩ hcr hget1
      (by unfold cacheTimeout; exact h2)
  · have hmiss3 : getCachedResult now3 st1.cache q opts = none :=
      c3_ttl_never_returned now3 st1.cache q opts ⟨enh, now1⟩ hget1
        (by unfold cacheTimeout; exact h3)
    obtain ⟨enh', st3, hs3, hfc3, _, hcalls3, _⟩ :=
      c3_search_miss t q opts now3 st1 hcr hmiss3
    exact ⟨enh', st3, hs3, hfc3, by rw [hcalls3, hcalls1']⟩

/-- The C3 witness track. -/
def c3track : UpTrack := { encoded := "enc", info := {} }

/-- Witness for C3 at concrete inputs: query `"q"` with
`cacheResults := some true`, first call at t=1000, identical call at t=2000
(cache hit, still one upstream call), and at t=400000 (expired, second
upstream call). -/
theorem C3_cache_hit_and_ttl_witness :
    ∃ enh st1,
      search (c3resolver c3track) true none 1000 "q"
          { cacheResults := some true } { cache := [] } = (.ok enh, st1) ∧
      enh.fromCache = false ∧
      st1.calls = 1 ∧
      search (c3resolver c3track) true none 2000 "q"
          { cacheResults := some true } st1 =
        (.ok { enh with fromCache := true, searchTime := 0 }, st1) ∧
      ∃ enh' st3,
        search (c3resolver c3track) true none 400000 "q"
            { cacheResults := some true } st1 = (.ok enh', st3) ∧
        enh'.fromCache = false ∧
        st3.calls = 2 :=
  (C3_cache_hit_and_ttl "q" c3track { cacheResults := some true } 1000 2000 400000
    rfl (by decide) (by decide)).2

end Kaza

namespace Kaza

open SearchManager

/-! ## C4 machinery: total failure of the upstream, and totality of `search` -/

/-- An upstream outcome on which `performSearch` cannot produce tracks: a
timeout, a rejection with a plain (non-structured) error, a `null` response,
a failed or no-matches load type, or an absent or empty track list. -/
def FailingOutcome : ResolveOutcome → Prop
  | .ok none => True
  | .ok (some r) =>
      r.loadType = "LOAD_FAILED" ∨ r.loadType = "NO_MATCHES" ∨
      r.tracks = none ∨ r.tracks = some []
  | .throws e => isKazaError e = false
  | .timeout => True

/-- A resolver every one of whose calls fails. -/
def ResolverFails (resolver : Resolver) : Prop :=
  ∀ i q, FailingOutcome (resolver i q)

/-- Errors circulating in the orchestrator: structured errors built by
`createError`, or plain errors. -/
def ErrClass (e : JSError) : Prop :=
  (∃ c, e = .kaza (ErrorHandler.createError c)) ∨ ∃ m, e = .other m

/-- A single attempt on a failing upstream throws an orchestrator error. -/
theorem attemptOnce_fails (resolver : Resolver) (na : Bool) (i : Nat) (q : String)
    (opts : SOpts) (hres : ResolverFails resolver) :
    ∃ e, attemptOnce resolver na i q opts = .error e ∧ ErrClass e := by
  unfold attemptOnce
  cases na with
  | false => exact ⟨_, rfl, Or.inl ⟨_, rfl⟩⟩
  | true =>
    have h := hres i q
    simp only [Bool.not_true, Bool.false_eq_true, if_false]
    cases hr : resolver i q with
    | timeout => exact ⟨_, rfl, Or.inl ⟨_, rfl⟩⟩
    | throws e =>
      rw [hr] at h
      cases e with
      | kaza k => simp [FailingOutcome, isKazaError] at h
      | other m => exact ⟨_, rfl, Or.inr ⟨m, rfl⟩⟩
    | ok o =>
      cases o with
      | none => exact ⟨_, rfl, Or.inl ⟨_, rfl⟩⟩
      | some r =>
        rw [hr] at h
        by_cases hl : r.loadType = "LOAD_FAILED"
        · exact ⟨.kaza (ErrorHandler.createError .SEARCH_FAILED), by simp [hl],
            Or.inl ⟨.SEARCH_FAILED, rfl⟩⟩
        · have h2 : r.loadType = "NO_MATCHES" ∨ r.tracks = none ∨ r.tracks = some [] := by
            rcases h with h | h | h | h
            · exact absurd h hl
            · exact Or.inl h
            · exact Or.inr (Or.inl h)
            · exact Or.inr (Or.inr h)
          exact ⟨.kaza (ErrorHandler.createError .NO_RESULTS), by simp [hl, h2],
            Or.inl ⟨.NO_RESULTS, rfl⟩⟩

/-- The retry loop over an always-failing operation settles on one of the
operation's errors (or, vacuously out of fuel, a plain error). -/
theorem retryGo_all_fail {α : Type} (op : RetryOp α) (M b : Nat) (rs : List ErrorCode)
    (P : JSError → Prop)
    (hop : ∀ a, ∃ e, op a = .error e ∧ P e)
    (hP : ∀ m, P (.other m)) :
    ∀ fuel attempt, ∃ e, (retryGo op M b rs attempt fuel).1 = .error e ∧ P e := by
  intro fuel
  induction fuel with
  | zero => exact fun attempt => ⟨_, rfl, hP _⟩
  | succ f ih =>
    intro attempt
    obtain ⟨e, he, hPe⟩ := hop attempt
    unfold retryGo
    rw [he]
    by_cases ha : attempt = M
    · simp only [ha, if_true, ite_true]
      exact ⟨e, rfl, hPe⟩
    · simp only [ha, if_false, ite_false]
      split
      · exact ⟨e, rfl, hPe⟩
      · exact ih (attempt + 1)

/-- Result shape of the structured error results the orchestrator returns on
total failure. -/
def ErrShaped (r : EnhancedSearchResult) : Prop :=
  r.type = "error" ∧ r.tracks = [] ∧
  ∃ ex, r.exception = some ex ∧ ex.message ≠ "" ∧
    (ex.severity = "common" ∨ ex.severity = "fault") ∧
    ∃ c, ex.code = some c ∧ ex.suggestions = ErrorHandler.errorSuggestions c

/-- `createErrorResult` over any structured error built by `createError`
produces an error-shaped result. -/
theorem createErrorResult_shaped (q : String) (c : ErrorCode) (ti : Nat) :
    ErrShaped (createErrorResult q (ErrorHandler.createError c) ti) := by
  refine ⟨rfl, rfl, _, rfl, ?_, ?_, c, rfl, rfl⟩
  · have h : ∀ c' : ErrorCode, ErrorHandler.errorMessages c' ≠ "" := by
      intro c'
      cases c' <;> decide
    simpa [ErrorHandler.createError] using h c
  · cases hrec : (ErrorHandler.createError c).recoverable with
    | true => exact Or.inl (by simp [createErrorResult, hrec])
    | false => exact Or.inr (by simp [createErrorResult, hrec])

/-- A search step that always settles (returns rather than throws), keeps an
empty cache empty, and returns an error-shaped result. -/
def AlwaysErrShaped (f : String → SOpts → SearchStep) : Prop :=
  ∀ q opts st, st.cache = [] →
    ∃ r st', f q opts st = (.ok r, st') ∧ st'.cache = [] ∧ ErrShaped r

/-- A search step that always settles. -/
def AlwaysOk (f : String → SOpts → SearchStep) : Prop :=
  ∀ q opts st, ∃ r st', f q opts st = (.ok r, st')

/-- The never-reached recursion placeholder settles with an error-shaped
result. -/
theorem deadSearch_errShaped : AlwaysErrShaped deadSearch :=
  fun q _ st h => ⟨_, st, rfl, h, createErrorResult_shaped q .UNKNOWN_ERROR 0⟩

/-- The never-reached recursion placeholder settles. -/
theorem deadSearch_ok : AlwaysOk deadSearch :=
  fun _ _ st => ⟨_, st, rfl⟩

/-- The fallback walk of a settling inner search settles. -/
theorem fallbackGo_ok (inner : String → SOpts → SearchStep)
    (hinner : AlwaysOk inner) (q : String) (opts : SOpts) (err : KazaError) :
    ∀ (l : List String) (st : SearchState),
      ∃ r st', fallbackGo inner q opts err l st = (.ok r, st') := by
  intro l
  induction l with
  | nil => exact fun st => ⟨_, st, rfl⟩
  | cons fb rest ih =>
    intro st
    obtain ⟨r, st', heq⟩ :=
      hinner q { opts with source := some fb, fallbackEngines := [], retryAttempts := some 1 } st
    exact ⟨r, st', by simp only [fallbackGo]; rw [heq]⟩

/-- The fallback walk over an error-shape-settling inner search settles on an
error-shaped result and keeps the cache empty. -/
theorem fallbackGo_errShaped (inner : String → SOpts → SearchStep)
    (hinner : AlwaysErrShaped inner) (q : String) (opts : SOpts) (c : ErrorCode) :
    ∀ (l : List String) (st : SearchState), st.cache = [] →
      ∃ r st', fallbackGo inner q opts (ErrorHandler.createError c) l st = (.ok r, st') ∧
        st'.cache = [] ∧ ErrShaped r := by
  intro l
  induction l with
  | nil =>
    exact fun st hst => ⟨_, st, rfl, hst, createErrorResult_shaped q c 0⟩
  | cons fb rest ih =>
    intro st hst
    obtain ⟨r, st', heq, hst', hsh⟩ :=
      hinner q { opts with source := some fb, fallbackEngines := [], retryAttempts := some 1 } st hst
    exact ⟨r, st', by simp only [fallbackGo]; rw [heq], hst', hsh⟩

/-- The search body settles whenever its recursive calls settle: the public
surface converts every internal throw into a returned result. -/
theorem searchCore_ok (resolver : Resolver) (na : Bool) (defEng : Option String)
    (now : Nat) (inner : String → SOpts → SearchStep) (hinner : AlwaysOk inner) :
    AlwaysOk (searchCore resolver na defEng now inner) := by
  intro q opts st
  simp only [searchCore]
  cases hhit : (if opts.cacheResults ≠ some false then getCachedResult now st.cache q opts
      else none) with
  | some cached => exact ⟨_, st, rfl⟩
  | none =>
    cases hout : (performSearchWithRetry resolver na st.calls
        (formatQuery q (URLParser.parse q)
          (determineSearchEngine defEng (URLParser.parse q) opts.source)) opts).1 with
    | ok r => exact ⟨_, _, rfl⟩
    | error e =>
      exact fallbackGo_ok inner hinner q opts _ opts.fallbackEngines _

/-- The search body on a failing resolver settles with an error-shaped result
whenever its recursive calls do. -/
theorem searchCore_errShaped (resolver : Resolver) (na : Bool) (defEng : Option String)
    (now : Nat) (inner : String → SOpts → SearchStep)
    (hres : ResolverFails resolver) (hinner : AlwaysErrShaped inner) :
    AlwaysErrShaped (searchCore resolver na defEng now inner) := by
  intro q opts st hst
  simp only [searchCore]
  have hmiss : getCachedResult now st.cache q opts = none := by
    rw [hst]; rfl
  have hhit : (if opts.cacheResults ≠ some false then getCachedResult now st.cache q opts
      else none) = none := by
    rw [hmiss, ite_self]
  rw [hhit]
  obtain ⟨e, he, hce⟩ := retryGo_all_fail
    (fun attempt => attemptOnce resolver na (st.calls + attempt)
      (formatQuery q (URLParser.parse q)
        (determineSearchEngine defEng (URLParser.parse q) opts.source)) opts)
    (jsOrN opts.retryAttempts 2) 1000 [.TIMEOUT, .CONNECTION_FAILED] ErrClass
    (fun a => attemptOnce_fails resolver na (st.calls + a) _ opts hres)
    (fun m => Or.inr ⟨m, rfl⟩)
    (jsOrN opts.retryAttempts 2 + 1) 0
  have hout : (performSearchWithRetry resolver na st.calls
      (formatQuery q (URLParser.parse q)
        (determineSearchEngine defEng (URLParser.parse q) opts.source)) opts).1 = .error e := by
    unfold performSearchWithRetry ErrorHandler.retry
    exact he
  simp only [hout]
  rcases hce with ⟨c, rfl⟩ | ⟨m, rfl⟩
  · exact fallbackGo_errShaped inner hinner q opts c opts.fallbackEngines _ (by simpa using hst)
  · exact fallbackGo_errShaped inner hinner q opts .SEARCH_FAILED opts.fallbackEngines _
      (by simpa using hst)

/-- C4: the public `search` surface never throws — for every resolver
behavior, node availability, configuration, query, options and state it
settles with a returned result — and on total upstream failure (every resolve
call failing, from a cold cache) the returned result is tagged `error`, has
an empty track list, and carries a structured exception with a nonempty
message, a severity classification in `{common, fault}`, and the taxonomy's
remediation-suggestion list for its error code. -/
theorem C4_search_never_throws_error_taxonomy :
    (∀ (resolver : Resolver) (na : Bool) (defEng : Option String) (now : Nat)
        (q : String) (opts : SOpts) (st : SearchState),
      ∃ r st', search resolver na defEng now q opts st = (.ok r, st')) ∧
    (∀ (resolver : Resolver) (na : Bool) (defEng : Option String) (now : Nat)
        (q : String) (opts : SOpts) (st : SearchState),
      ResolverFails resolver → st.cache = [] →
      ∃ r st', search resolver na defEng now q opts st = (.ok r, st') ∧
        r.type = "error" ∧ r.tracks = [] ∧
        ∃ ex, r.exception = some ex ∧ ex.message ≠ "" ∧
          (ex.severity = "common" ∨ ex.severity = "fault") ∧
          ∃ c, ex.code = some c ∧ ex.suggestions = ErrorHandler.errorSuggestions c) := by
  constructor
  · intro resolver na defEng now q opts st
    exact searchCore_ok resolver na defEng now _
      (searchCore_ok resolver na defEng now _ deadSearch_ok) q opts st
  · intro resolver na defEng now q opts st hres hst
    obtain ⟨r, st', heq, _, hsh⟩ :=
      searchCore_errShaped resolver na defEng now _ hres
        (searchCore_errShaped resolver na defEng now _ hres deadSearch_errShaped)
        q opts st hst
    exact ⟨r, st', heq, hsh.1, hsh.2.1, hsh.2.2⟩

/-- Witness for C4: against the resolver that always returns an empty result
set, a cold-cache search for `"song name"` settles with an error-tagged,
trackless result carrying a structured exception. -/
theorem C4_search_never_throws_error_taxonomy_witness :
    ∃ r st', search emptyResultResolver true none 0 "song name" {} { cache := [] } =
        (.ok r, st') ∧
      r.type = "error" ∧ r.tracks = [] ∧
      ∃ ex, r.exception = some ex ∧ ex.message ≠ "" ∧
        (ex.severity = "common" ∨ ex.severity = "fault") ∧
        ∃ c, ex.code = some c ∧ ex.suggestions = ErrorHandler.errorSuggestions c :=
  C4_search_never_throws_error_taxonomy.2 emptyResultResolver true none 0 "song name" {}
    { cache := [] } (fun _ _ => Or.inr (Or.inr (Or.inr rfl))) rfl

end Kaza
